import Mathlib

/-!
Verification development for the VibeTranscribe recording core.

The definitions below are shallow embeddings of the repository's
TypeScript sources:

* `src/utils/audioDevices.ts` — device-label cleanup, duplicate-microphone
  filtering and default-first ordering;
* `src/components/Recorder.tsx` — the audio-level sampling loop
  (`startAudioLevelCheck`), the `startRecording` cleanup/acquisition path and
  the `mediaRecorder.onstop` artifact decision;
* `src/components/Transcriber.tsx` — the pre-network phase of
  `transcribeAudio`;
* `src/app/page.tsx` — the orchestrating `startRecordingHandler`.

Strings are Lean `String`s; binary blobs are `List Nat` (byte values);
JavaScript regular-expression calls are translated into explicit scanning
functions over `List Char` with the same leftmost-match semantics.
-/

namespace VibeTranscribe

/-- Hex digit as matched by the JS character class `[\da-fA-F]`. -/
def isHexDigitJs (c : Char) : Bool :=
  c.isDigit || ('a' ≤ c && c ≤ 'f') || ('A' ≤ c && c ≤ 'F')

/-- ASCII whitespace as matched by the JS class `\s` (the labels handled by
the repository only ever contain these). -/
def isJsWs (c : Char) : Bool :=
  c = ' ' || c = '\t' || c = '\n' || c = '\r' || c = '\x0b' || c = '\x0c'

/-- JS `String.prototype.trim`: drop whitespace from both ends. -/
def jsTrim (s : String) : String :=
  String.mk (((s.data.dropWhile isJsWs).reverse.dropWhile isJsWs).reverse)

/-- Does list `l` start with `pat`? (character-based, as in JS). -/
def listStartsWith : List Char → List Char → Bool
  | _, [] => true
  | [], _ :: _ => false
  | c :: cs, p :: ps => (c == p) && listStartsWith cs ps

/-- JS `s.startsWith(pat)`. -/
def strStartsWith (s pat : String) : Bool :=
  listStartsWith s.data pat.data

/-- The call `label.replace(/^(Default|Communications) - /, '')` from
`audioDevices.ts`: strip one leading marker if present. -/
def stripDefaultComm (label : String) : String :=
  if strStartsWith label "Default - " then String.mk (label.data.drop 10)
  else if strStartsWith label "Communications - " then
    String.mk (label.data.drop 17)
  else label

/-- The call `s.replace(/^Microphone\s+/, '')` from `audioDevices.ts`: strip
a leading "Microphone" token followed by a maximal nonempty whitespace run. -/
def stripMicrophoneToken (s : String) : String :=
  if strStartsWith s "Microphone" then
    match s.data.drop 10 with
    | c :: rest =>
        if isJsWs c then String.mk ((c :: rest).dropWhile isJsWs) else s
    | [] => s
  else s

/-- The first match of `/\(([^)]+)\)/`: scanning left to right, the first
`(` that is followed by at least one non-`)` character and then a `)`;
returns the captured contents. -/
def firstParenInner : List Char → Option (List Char)
  | [] => none
  | c :: rest =>
      if c = '(' then
        let inner := rest.takeWhile (fun x => x ≠ ')')
        if inner.length ≠ 0 ∧ inner.length < rest.length then some inner
        else firstParenInner rest
      else firstParenInner rest

/-- Full-string match of `/^[\da-fA-F]{2,4}:[\da-fA-F]{2,4}$/`. -/
def isHwIdFull (l : List Char) : Bool :=
  let a := l.takeWhile isHexDigitJs
  if 2 ≤ a.length && a.length ≤ 4 then
    match l.drop a.length with
    | ':' :: r =>
        2 ≤ r.length && r.length ≤ 4 && r.all isHexDigitJs
    | _ => false
  else false

/-- Parse `\([\da-fA-F]{2,4}:[\da-fA-F]{2,4}\)` matching the whole of `l`,
returning the captured `a:b` contents. -/
def hwSuffixParse (l : List Char) : Option (List Char) :=
  match l with
  | '(' :: r =>
      let a := r.takeWhile isHexDigitJs
      if 2 ≤ a.length ∧ a.length ≤ 4 then
        match r.drop a.length with
        | ':' :: r2 =>
            let b := r2.takeWhile isHexDigitJs
            if 2 ≤ b.length ∧ b.length ≤ 4 then
              match r2.drop b.length with
              | [')'] => some (a ++ ':' :: b)
              | _ => none
            else none
        | _ => none
      else none
  | _ => none

/-- Leftmost suffix position at which `\((hex){2,4}:(hex){2,4}\)$` matches:
the scan of `label.match(/\(([\da-fA-F]{2,4}:[\da-fA-F]{2,4})\)$/)` in
`filterDuplicateMicrophones`, returning the captured hardware id. -/
def hwIdAtEndAux : List Char → Option (List Char)
  | [] => none
  | c :: rest =>
      match hwSuffixParse (c :: rest) with
      | some inner => some inner
      | none => hwIdAtEndAux rest

/-- Captured group of `label.match(/\(([\da-fA-F]{2,4}:[\da-fA-F]{2,4})\)$/)`. -/
def hwIdAtEnd (label : String) : Option String :=
  (hwIdAtEndAux label.data).map String.mk

/-- Does the whole suffix `l` match `\s*\([\da-fA-F]{2,4}:[\da-fA-F]{2,4}\)`? -/
def wsHwSuffixMatches (l : List Char) : Bool :=
  (hwSuffixParse (l.dropWhile isJsWs)).isSome

/-- The call `displayName.replace(/\s*\([\da-fA-F]{2,4}:[\da-fA-F]{2,4}\)$/, '')`:
remove the leftmost end-anchored whitespace-plus-hardware-id parenthetical. -/
def stripTrailingHwParenAux : List Char → Option (List Char)
  | [] => none
  | c :: rest =>
      if wsHwSuffixMatches (c :: rest) then some []
      else (stripTrailingHwParenAux rest).map (c :: ·)

def stripTrailingHwParen (s : String) : String :=
  match stripTrailingHwParenAux s.data with
  | some kept => String.mk kept
  | none => s

/-- Does the whole suffix `l` match `\s*\([^)]*\)`? -/
def wsParenSuffixMatches (l : List Char) : Bool :=
  match l.dropWhile isJsWs with
  | '(' :: r =>
      match r.reverse with
      | ')' :: inner => inner.all (fun x => x ≠ ')')
      | _ => false
  | _ => false

/-- The call `displayName.replace(/\s*\([^)]*\)$/, '')`: remove the leftmost
end-anchored whitespace-plus-parenthetical (contents without `)`). -/
def stripTrailingParenAux : List Char → Option (List Char)
  | [] => none
  | c :: rest =>
      if wsParenSuffixMatches (c :: rest) then some []
      else (stripTrailingParenAux rest).map (c :: ·)

def stripTrailingParen (s : String) : String :=
  match stripTrailingParenAux s.data with
  | some kept => String.mk kept
  | none => s

/-- The function `extractDisplayName` from `src/utils/audioDevices.ts`
lines 15-37. -/
def extractDisplayName (label : String) : String :=
  let displayName := stripDefaultComm label
  let displayName := stripMicrophoneToken displayName
  let displayName :=
    match firstParenInner displayName.data with
    | some contents =>
        if isHwIdFull contents = false then String.mk contents
        else stripTrailingParen (stripTrailingHwParen displayName)
    | none => stripTrailingParen (stripTrailingHwParen displayName)
  jsTrim displayName

/-- Contiguous-substring test, the JS `haystack.includes(needle)`. -/
def listContainsSub : List Char → List Char → Bool
  | [], pat => pat.isEmpty
  | c :: rest, pat => listStartsWith (c :: rest) pat || listContainsSub rest pat

def strIncludes (s sub : String) : Bool :=
  listContainsSub s.data sub.data

/-- The `AudioDevice` interface of `src/utils/audioDevices.ts`. -/
structure AudioDevice where
  deviceId : String
  label : String
  displayName : String
  isDefault : Bool
deriving DecidableEq, Repr

/-- The `baseName` computation of `filterDuplicateMicrophones`
(lines 149-154): strip the `Default - `/`Communications - ` marker, trim,
then strip a leading `Microphone` token. -/
def baseNameOf (label : String) : String :=
  stripMicrophoneToken (jsTrim (stripDefaultComm label))

/-- Mutable locals of `filterDuplicateMicrophones`: the `hardwareIds` set,
the `deviceNames` map keys, and the accumulated `uniqueDevices`. -/
structure DedupState where
  hardwareIds : List String
  deviceNames : List String
  uniqueDevices : List AudioDevice
deriving DecidableEq, Repr

/-- Branch of the dedup loop body for a label carrying a trailing hardware
id (`audioDevices.ts` lines 124-145). -/
def processHw (s : DedupState) (device : AudioDevice)
    (hardwareId : String) : DedupState :=
  if hardwareId ∈ s.hardwareIds then
    if device.isDefault then
      match s.uniqueDevices.findIdx?
          (fun d => strIncludes d.label hardwareId && d.isDefault) with
      | some i =>
          if strStartsWith device.label "Default -" then
            { s with uniqueDevices := s.uniqueDevices.set i device }
          else s
      | none => { s with uniqueDevices := s.uniqueDevices ++ [device] }
    else s
  else
    { s with hardwareIds := s.hardwareIds ++ [hardwareId],
             uniqueDevices := s.uniqueDevices ++ [device] }

/-- Branch of the dedup loop body for a label without a trailing hardware
id, grouped by prefix-stripped base name (`audioDevices.ts` lines
146-176). -/
def processName (s : DedupState) (device : AudioDevice) : DedupState :=
  if baseNameOf device.label ∈ s.deviceNames then
    if device.isDefault then
      match s.uniqueDevices.findIdx?
          (fun d => decide (jsTrim (stripDefaultComm d.label)
                      = baseNameOf device.label)
                    && d.isDefault) with
      | some i =>
          if strStartsWith device.label "Default -" then
            { s with uniqueDevices := s.uniqueDevices.set i device }
          else s
      | none => { s with uniqueDevices := s.uniqueDevices ++ [device] }
    else s
  else
    { s with deviceNames := s.deviceNames ++ [baseNameOf device.label],
             uniqueDevices := s.uniqueDevices ++ [device] }

/-- One iteration of the `for (const device of orderedDevices)` loop of
`filterDuplicateMicrophones` (`audioDevices.ts` lines 120-177). -/
def processDevice (s : DedupState) (device : AudioDevice) : DedupState :=
  match hwIdAtEnd device.label with
  | some hardwareId => processHw s device hardwareId
  | none => processName s device

/-- The function `filterDuplicateMicrophones` (`audioDevices.ts` lines
106-180): process default devices first, then non-default ones. -/
def filterDuplicateMicrophones (devices : List AudioDevice) : List AudioDevice :=
  let defaultDevices := devices.filter (fun d => d.isDefault)
  let nonDefaultDevices := devices.filter (fun d => !d.isDefault)
  let orderedDevices := defaultDevices ++ nonDefaultDevices
  (orderedDevices.foldl processDevice ⟨[], [], []⟩).uniqueDevices

/-- The platform `MediaDeviceInfo` fields read by `getAudioInputDevices`. -/
structure MediaDeviceInfo where
  deviceId : String
  label : String
  kind : String
deriving DecidableEq, Repr

/-- The per-device mapping of `getAudioInputDevices`
(`audioDevices.ts` lines 64-75). -/
def mkAudioDevice (device : MediaDeviceInfo) : AudioDevice :=
  let label :=
    if device.label = "" then "Microphone " ++ device.deviceId.take 5 ++ "..."
    else device.label
  { deviceId := device.deviceId
    label := label
    displayName := extractDisplayName label
    isDefault := device.deviceId == "default" || device.deviceId == "" }

/-- The final ordering step of `getAudioInputDevices` (lines 85-92):
`uniqueDevices.sort` with a comparator that puts default devices first and
returns 0 otherwise. JS `Array.prototype.sort` is stable, and a stable sort
under this two-class comparator is exactly the stable partition below; the
`sort` call is only made when the list has more than one element. -/
def sortDefaultFirst (l : List AudioDevice) : List AudioDevice :=
  if 1 < l.length then
    l.filter (fun d => d.isDefault) ++ l.filter (fun d => !d.isDefault)
  else l

/-- The pure pipeline of `getAudioInputDevices` (`audioDevices.ts`
lines 43-99), taking the enumerated platform devices as input. -/
def getAudioInputDevices (devices : List MediaDeviceInfo) : List AudioDevice :=
  sortDefaultFirst (filterDuplicateMicrophones
    ((devices.filter (fun d => d.kind == "audioinput")).map mkAudioDevice))

/-! ### Audio activity monitor (`Recorder.tsx`, `startAudioLevelCheck`) -/

/-- Sound-detection refs of `Recorder.tsx`: `hasMeaningfulAudioRef` and
`silentFramesCountRef`. -/
structure MonitorState where
  hasMeaningfulAudio : Bool
  silentFramesCount : Nat
deriving DecidableEq, Repr

/-- State after the resets at `startAudioLevelCheck` lines 55-56. -/
def initMonitorState : MonitorState := ⟨false, 0⟩

/-- The constant `const threshold = 10` (`Recorder.tsx` line 87), on the
0-255 byte scale of `getByteFrequencyData`. -/
def threshold : ℚ := 10

/-- The mean frequency-bin energy computed at `Recorder.tsx` lines 83-84:
`sum / length`. The JS numbers involved are exact (byte values divided by
the bin count), so rational arithmetic models them faithfully. -/
def avgLevel (data : List Nat) : ℚ :=
  ((data.sum : ℚ)) / ((data.length : ℚ))

/-- One sampling tick of the `setInterval` callback
(`Recorder.tsx` lines 76-97), applied to the bytes read from the analyser. -/
def audioLevelTick (s : MonitorState) (data : List Nat) : MonitorState :=
  if threshold < avgLevel data then ⟨true, 0⟩
  else ⟨s.hasMeaningfulAudio, s.silentFramesCount + 1⟩

/-- Run the sampling loop over a whole session's ticks. -/
def runTicks (s : MonitorState) (ticks : List (List Nat)) : MonitorState :=
  ticks.foldl audioLevelTick s

/-! ### Artifact decision (`Recorder.tsx`, `mediaRecorder.onstop`) -/

/-- The constant `const minBlobSize = 1000` (`Recorder.tsx` line 202). -/
def minBlobSize : Nat := 1000

/-- The artifact decision of the `mediaRecorder.onstop` handler
(`Recorder.tsx` lines 184-220). `none` means the completion callback
`onRecordingComplete` is not invoked at all; `some bytes` means it is
invoked with a blob holding `bytes` (so `some []` is the empty-artifact
sentinel of line 207). -/
def onstop (hasMeaningfulAudio : Bool) (chunks : List (List Nat)) :
    Option (List Nat) :=
  if chunks.length = 0 then none
  else
    let audioBlob := chunks.flatten
    if hasMeaningfulAudio = false ∨ audioBlob.length < minBlobSize then
      some []
    else if 0 < audioBlob.length then some audioBlob
    else none

/-! ### Transcriber (`Transcriber.tsx`, `transcribeAudio`) -/

/-- What `transcribeAudio` does before any network interaction:
either it throws ("Audio recording is empty") on a zero-size blob, or it
builds the upload file and issues the `fetch` to `/api/transcribe`. -/
inductive TranscribeAction where
  | abortEmpty
  | request (fileName : String)
deriving DecidableEq, Repr

/-- File-extension selection of `transcribeAudio` (lines 45-47). -/
def fileExtensionOf (blobType : String) : String :=
  if strIncludes blobType "webm" then "webm"
  else if strIncludes blobType "mp4" then "mp4"
  else if strIncludes blobType "ogg" then "ogg"
  else "wav"

/-- The pre-network phase of `transcribeAudio` (`Transcriber.tsx`
lines 38-70): the zero-size validation happens before the request. -/
def transcribeAudio (blobSize : Nat) (blobType : String) : TranscribeAction :=
  if blobSize = 0 then .abortEmpty
  else .request ("recording." ++ fileExtensionOf blobType)

/-- Whether the action reaches the `fetch("/api/transcribe", ...)` call. -/
def sendsNetworkRequest : TranscribeAction → Bool
  | .abortEmpty => false
  | .request _ => true

/-! ### Orchestrator (`page.tsx`) and capture-session start (`Recorder.tsx`) -/

/-- The `Home` component state read or written by `startRecordingHandler`,
together with the stream-acquisition effect it triggers: setting
`isRecording` from false to true makes the `Recorder` effect run
`startRecording`, which performs exactly one `getUserMedia` acquisition.
`streamAcquisitions` counts acquisitions; `activeStream` identifies the
stream currently held. -/
structure AppState where
  isRecording : Bool
  isTranscribing : Bool
  progressText : String
  isTranscriptionClosed : Bool
  streamAcquisitions : Nat
  activeStream : Option Nat
deriving DecidableEq, Repr

/-- The handler `startRecordingHandler` (`page.tsx` lines 68-82) composed with the
acquisition effect described above; when the guard rejects the trigger the
state is returned unchanged. -/
def startRecordingHandler (s : AppState) : AppState :=
  if s.isRecording = false ∧ s.isTranscribing = false then
    { s with isRecording := true
             progressText := ""
             isTranscriptionClosed := false
             streamAcquisitions := s.streamAcquisitions + 1
             activeStream := some (s.streamAcquisitions + 1) }
  else s

/-- Apply `n` rapid start triggers in succession with no intervening stop. -/
def startTriggers : Nat → AppState → AppState
  | 0, s => s
  | n + 1, s => startTriggers n (startRecordingHandler s)

/-- Result of the `navigator.mediaDevices.getUserMedia` await in
`startRecording`. -/
inductive MediaResult where
  | granted (streamId : Nat)
  | denied
deriving DecidableEq, Repr

/-- The `Recorder` refs touched by `startRecording`. -/
structure SessionState where
  isRecording : Bool
  stream : Option Nat
  monitorRunning : Bool
  recorderActive : Bool
  chunks : List (List Nat)
  monitor : MonitorState
deriving DecidableEq, Repr

/-- The function `startRecording` (`Recorder.tsx` lines 120-229): release any previous
stream, stop the level monitor, reset the chunk buffer and the
`hasMeaningfulAudio` latch (lines 126-133); then await `getUserMedia`. On
success the stream is held, the monitor restarted (resetting both monitor
refs, lines 55-56) and the recorder started; on failure the `catch` block
only logs and calls `setIsRecording(false)` (lines 225-228). -/
def startRecording (s : SessionState) (res : MediaResult) : SessionState :=
  let cleaned : SessionState :=
    { s with stream := none
             monitorRunning := false
             chunks := []
             monitor := ⟨false, s.monitor.silentFramesCount⟩ }
  match res with
  | .granted streamId =>
      { cleaned with stream := some streamId
                     monitorRunning := true
                     monitor := initMonitorState
                     recorderActive := true }
  | .denied => { cleaned with isRecording := false }

/-- A device's dedup identity: the trailing hardware id when the label has
one, otherwise the prefix-stripped base name. The two cases correspond to
the two separate containers (`hardwareIds` / `deviceNames`) of
`filterDuplicateMicrophones`. -/
inductive DeviceKey where
  | hw (id : String)
  | name (n : String)
deriving DecidableEq, Repr

/-- Identity used to group devices during deduplication. -/
def keyOf (d : AudioDevice) : DeviceKey :=
  match hwIdAtEnd d.label with
  | some h => .hw h
  | none => .name (baseNameOf d.label)

/-- All identities recorded so far in the two seen-containers of the dedup
loop. -/
def stateKeys (s : DedupState) : List DeviceKey :=
  s.hardwareIds.map DeviceKey.hw ++ s.deviceNames.map DeviceKey.name

/-! ### Spec-side display-name pipeline (for the refinement claim C8) -/

/-- The display-name derivation exactly as the specification words it:
"stripping a leading `Default - ` or `Communications - ` prefix, then a
leading `Microphone` token; then, if a parenthetical substring exists whose
contents are not a 2-4-hex-digit `xxxx:yyyy` hardware-id pattern, using
those contents as the display name; otherwise stripping any trailing
hardware-id parenthetical and any trailing remaining parenthetical, then
trimming". -/
def specDisplayName (label : String) : String :=
  let base := stripMicrophoneToken (stripDefaultComm label)
  let core :=
    match firstParenInner base.data with
    | some inner =>
        if isHwIdFull inner then stripTrailingParen (stripTrailingHwParen base)
        else String.mk inner
    | none => stripTrailingParen (stripTrailingHwParen base)
  jsTrim core

/-! ### Helper lemmas about the sampling loop and the artifact decision -/

lemma runTicks_cons (s : MonitorState) (d : List Nat) (ds : List (List Nat)) :
    runTicks s (d :: ds) = runTicks (audioLevelTick s d) ds := rfl

/-- Once the latch is set it survives any further sampling ticks. -/
lemma latch_true_runTicks (ticks : List (List Nat)) :
    ∀ s : MonitorState, s.hasMeaningfulAudio = true →
      (runTicks s ticks).hasMeaningfulAudio = true := by
  induction ticks with
  | nil => intro s h; exact h
  | cons d ds ih =>
      intro s h
      rw [runTicks_cons]
      apply ih
      unfold audioLevelTick
      split
      · rfl
      · exact h

/-- If every tick's mean energy stays at or below the threshold, the latch
stays false. -/
lemma latch_false_runTicks (ticks : List (List Nat)) :
    ∀ s : MonitorState, s.hasMeaningfulAudio = false →
      (∀ d ∈ ticks, avgLevel d ≤ threshold) →
      (runTicks s ticks).hasMeaningfulAudio = false := by
  induction ticks with
  | nil => intro s h _; exact h
  | cons d ds ih =>
      intro s h hall
      rw [runTicks_cons]
      apply ih
      · unfold audioLevelTick
        rw [if_neg (not_lt.mpr (hall d (List.mem_cons_self d ds)))]
        exact h
      · intro d' hd'
        exact hall d' (List.mem_cons_of_mem d hd')

/-- Evaluation of `onstop` when at least one chunk was accumulated. -/
lemma onstop_of_ne_nil (h : Bool) (chunks : List (List Nat))
    (hne : chunks ≠ []) :
    onstop h chunks =
      if h = false ∨ chunks.flatten.length < minBlobSize then some []
      else some chunks.flatten := by
  have hlen : ¬ chunks.length = 0 := by simpa using hne
  unfold onstop
  rw [if_neg hlen]
  by_cases hc : h = false ∨ chunks.flatten.length < minBlobSize
  · rw [if_pos hc, if_pos hc]
  · rw [if_neg hc, if_neg hc]
    have hge : minBlobSize ≤ chunks.flatten.length := by
      rcases not_or.mp hc with ⟨_, h2⟩
      exact not_lt.mp h2
    rw [if_pos]
    have : 0 < minBlobSize := by norm_num [minBlobSize]
    omega

/-- Claim C1: a session that reaches stop() with at least one accumulated
chunk returns the empty-artifact sentinel iff the `hasMeaningfulAudio`
latch is false or the concatenated byte length is below `minBlobSize`
(1000); otherwise it returns the concatenation of all chunks; in
particular a session whose every sampling tick had mean energy at or below
the threshold yields the sentinel even though non-empty chunks were
accumulated. -/
theorem onstop_sentinel_iff (hasMeaningful : Bool) (chunks : List (List Nat))
    (hne : chunks ≠ []) :
    (onstop hasMeaningful chunks = some [] ↔
      (hasMeaningful = false ∨ chunks.flatten.length < minBlobSize))
    ∧ (hasMeaningful = true → minBlobSize ≤ chunks.flatten.length →
        onstop hasMeaningful chunks = some chunks.flatten)
    ∧ (∀ ticks : List (List Nat), (∀ d ∈ ticks, avgLevel d ≤ threshold) →
        onstop (runTicks initMonitorState ticks).hasMeaningfulAudio chunks
          = some []) := by
  refine ⟨⟨?_, ?_⟩, ?_, ?_⟩
  · intro h
    by_contra hc
    rw [onstop_of_ne_nil _ _ hne, if_neg hc] at h
    rcases not_or.mp hc with ⟨_, h2⟩
    have hge : minBlobSize ≤ chunks.flatten.length := not_lt.mp h2
    have : chunks.flatten.length = 0 := by
      have := Option.some.inj h
      simp [this]
    have hpos : 0 < minBlobSize := by norm_num [minBlobSize]
    omega
  · intro hc
    rw [onstop_of_ne_nil _ _ hne, if_pos hc]
  · intro h1 h2
    rw [onstop_of_ne_nil _ _ hne, if_neg]
    rintro (hfalse | hsmall)
    · rw [h1] at hfalse; cases hfalse
    · omega
  · intro ticks hall
    have hfalse : (runTicks initMonitorState ticks).hasMeaningfulAudio = false :=
      latch_false_runTicks ticks initMonitorState rfl hall
    rw [onstop_of_ne_nil _ _ hne, if_pos (Or.inl hfalse)]

/-- Witness for C1 at a concrete session: one 3-byte chunk, latch never
set. -/
theorem onstop_sentinel_iff_witness :
    onstop false [[1, 2, 3]] = some [] :=
  ((onstop_sentinel_iff false [[1, 2, 3]] (by decide)).1).mpr (Or.inl rfl)

/-- Claim C2: `hasMeaningfulAudio` is a monotonic latch — once a sampling
tick's mean energy exceeds the threshold it stays true at every later
point of the session (for any suffix of further ticks, hence also when
stop() reads it), irrespective of later sub-threshold readings; it is
reset to false only when a new session starts (`startRecording`). -/
theorem hasMeaningfulAudio_latch (s : MonitorState) (early : List (List Nat))
    (d : List Nat) (later : List (List Nat))
    (hd : threshold < avgLevel d) :
    (runTicks s (early ++ d :: later)).hasMeaningfulAudio = true
    ∧ initMonitorState.hasMeaningfulAudio = false
    ∧ ∀ (st : SessionState) (res : MediaResult),
        (startRecording st res).monitor.hasMeaningfulAudio = false := by
  refine ⟨?_, rfl, ?_⟩
  · have hsplit : runTicks s (early ++ d :: later)
        = runTicks (audioLevelTick (runTicks s early) d) later := by
      simp [runTicks, List.foldl_append]
    rw [hsplit]
    apply latch_true_runTicks
    unfold audioLevelTick
    rw [if_pos hd]
  · intro st res
    cases res <;> rfl

/-- Witness for C2: a single loud tick (mean energy 30 > 10) latches the
monitor. -/
theorem hasMeaningfulAudio_latch_witness :
    (runTicks initMonitorState ([] ++ [30] :: [[0]])).hasMeaningfulAudio
      = true :=
  (hasMeaningfulAudio_latch initMonitorState [] [30] [[0]]
    (by norm_num [avgLevel, threshold])).1

/-- Claim C3 counterexample: with zero accumulated chunks the onstop
handler returns early (`Recorder.tsx` lines 191-195) without invoking the
recording-completion callback, so no empty-artifact sentinel is delivered
— the claim's asserted sentinel delivery fails at this concrete input. -/
theorem onstop_zero_chunks_counterexample :
    onstop true [] = none ∧ onstop false [] = none
    ∧ onstop true [] ≠ some [] := by
  refine ⟨rfl, rfl, ?_⟩
  intro h
  cases h

/-- Claim C3 (amended): a session that reaches stop() with zero accumulated
chunks produces no result at all — the completion callback is never
invoked (the handler logs a capture failure and resets the recording
flag), rather than delivering the empty-artifact sentinel. -/
theorem onstop_zero_chunks_none (h : Bool) : onstop h [] = none := by
  cases h <;> rfl

/-- Claim C4: the transcriber issues its network request only for artifacts
of byte length greater than zero; for a zero-byte artifact (in particular
the empty-artifact sentinel `some []` handed over by the capture session)
it aborts before the request. -/
theorem transcriber_skips_empty_artifact :
    (∀ blobType, sendsNetworkRequest (transcribeAudio 0 blobType) = false)
    ∧ (∀ (blobSize : Nat) (blobType : String),
        sendsNetworkRequest (transcribeAudio blobSize blobType) = true
          ↔ 0 < blobSize)
    ∧ (∀ (h : Bool) (chunks : List (List Nat)) (bytes : List Nat)
        (blobType : String), onstop h chunks = some bytes → bytes.length = 0 →
        sendsNetworkRequest (transcribeAudio bytes.length blobType) = false) := by
  refine ⟨fun _ => rfl, ?_, ?_⟩
  · intro n t
    unfold transcribeAudio
    rcases Nat.eq_zero_or_pos n with h | h
    · subst h
      simp [sendsNetworkRequest]
    · rw [if_neg (Nat.pos_iff_ne_zero.mp h)]
      simp [sendsNetworkRequest, h]
  · intro h chunks bytes blobType _ hlen
    rw [hlen]
    rfl

/-- Witness for C4 at a concrete sentinel handover: a silent 1-byte-chunk
session produces `some []` and the transcriber sends nothing. -/
theorem transcriber_skips_empty_artifact_witness :
    sendsNetworkRequest
      (transcribeAudio (List.length ([] : List Nat)) "audio/webm") = false :=
  transcriber_skips_empty_artifact.2.2 false [[1]] [] "audio/webm"
    (by decide) rfl

/-- Under an already-recording state, any number of further start triggers
leaves the state fixed. -/
lemma startTriggers_of_recording (n : Nat) :
    ∀ s : AppState, s.isRecording = true → startTriggers n s = s := by
  induction n with
  | zero => intro s _; rfl
  | succ m ih =>
      intro s h
      have hfix : startRecordingHandler s = s := by
        unfold startRecordingHandler
        rw [if_neg]
        rintro ⟨h1, _⟩
        rw [h] at h1
        cases h1
      show startTriggers m (startRecordingHandler s) = s
      rw [hfix]
      exact ih s h

/-- Claim C5: a start request received while already Recording (or
transcribing) is a silent no-op — the state, including the held stream, is
unchanged — and any run of `n + 1` rapid start triggers from an idle state
performs exactly one stream acquisition and holds that single stream. -/
theorem start_while_recording_noop :
    (∀ s : AppState, s.isRecording = true ∨ s.isTranscribing = true →
        startRecordingHandler s = s)
    ∧ (∀ (s : AppState) (n : Nat),
        s.isRecording = false → s.isTranscribing = false →
        (startTriggers (n + 1) s).streamAcquisitions
            = s.streamAcquisitions + 1
        ∧ (startTriggers (n + 1) s).activeStream
            = some (s.streamAcquisitions + 1)) := by
  constructor
  · intro s h
    unfold startRecordingHandler
    rw [if_neg]
    rintro ⟨h1, h2⟩
    rcases h with h | h
    · rw [h] at h1; cases h1
    · rw [h] at h2; cases h2
  · intro s n h1 h2
    have hfirst : startRecordingHandler s =
        { s with isRecording := true
                 progressText := ""
                 isTranscriptionClosed := false
                 streamAcquisitions := s.streamAcquisitions + 1
                 activeStream := some (s.streamAcquisitions + 1) } := by
      unfold startRecordingHandler
      rw [if_pos ⟨h1, h2⟩]
    show (startTriggers n (startRecordingHandler s)).streamAcquisitions
        = s.streamAcquisitions + 1
      ∧ (startTriggers n (startRecordingHandler s)).activeStream
        = some (s.streamAcquisitions + 1)
    rw [hfirst, startTriggers_of_recording n _ rfl]
    exact ⟨rfl, rfl⟩

/-- Witness for C5: three rapid start triggers from a fresh idle state
acquire exactly one stream. -/
theorem start_while_recording_noop_witness :
    (startTriggers 3 ⟨false, false, "", false, 0, none⟩).streamAcquisitions
      = 0 + 1 :=
  (start_while_recording_noop.2 ⟨false, false, "", false, 0, none⟩ 2
    rfl rfl).1

/-- Claim C7: on any deduplicated device list holding at least one
default-flagged entry, the final ordering step puts a default-flagged entry
first, and entries with the same default flag keep their previous relative
order (the partition is stable, no further re-sort). -/
theorem sortDefaultFirst_default_first (l : List AudioDevice)
    (hex : ∃ d ∈ l, d.isDefault = true) :
    (∃ hd rest, sortDefaultFirst l = hd :: rest ∧ hd.isDefault = true)
    ∧ (sortDefaultFirst l).filter (fun d => d.isDefault)
        = l.filter (fun d => d.isDefault)
    ∧ (sortDefaultFirst l).filter (fun d => !d.isDefault)
        = l.filter (fun d => !d.isDefault) := by
  obtain ⟨d, hdl, hdd⟩ := hex
  unfold sortDefaultFirst
  by_cases hlen : 1 < l.length
  · rw [if_pos hlen]
    refine ⟨?_, ?_, ?_⟩
    · cases hfil : l.filter (fun d => d.isDefault) with
      | nil =>
          exfalso
          have : d ∈ l.filter (fun d => d.isDefault) :=
            List.mem_filter.mpr ⟨hdl, hdd⟩
          rw [hfil] at this
          cases this
      | cons a t =>
          refine ⟨a, t ++ l.filter (fun d => !d.isDefault),
            by rw [List.cons_append], ?_⟩
          have ha : a ∈ l.filter (fun d => d.isDefault) := by
            rw [hfil]; exact List.mem_cons_self a t
          exact (List.mem_filter.mp ha).2
    · rw [List.filter_append, List.filter_filter, List.filter_filter]
      simp
    · rw [List.filter_append, List.filter_filter, List.filter_filter]
      simp
  · rw [if_neg hlen]
    refine ⟨?_, rfl, rfl⟩
    cases l with
    | nil => cases hdl
    | cons a t =>
        cases t with
        | nil =>
            have : d = a := by
              cases hdl with
              | head => rfl
              | tail _ h => cases h
            exact ⟨a, [], rfl, this ▸ hdd⟩
        | cons b u =>
            exfalso
            exact hlen (by rw [List.length_cons, List.length_cons]; omega)

/-- Witness for C7: a two-entry deduplicated list with the default entry
second gets reordered default-first. -/
theorem sortDefaultFirst_default_first_witness :
    ∃ hd rest,
      sortDefaultFirst
        [⟨"B1", "USB Mic (ef01:5678)", "USB Mic", false⟩,
         ⟨"default", "Default - Mic (Realtek)(abcd:1234)", "Realtek", true⟩]
        = hd :: rest ∧ hd.isDefault = true :=
  (sortDefaultFirst_default_first
    [⟨"B1", "USB Mic (ef01:5678)", "USB Mic", false⟩,
     ⟨"default", "Default - Mic (Realtek)(abcd:1234)", "Realtek", true⟩]
    ⟨⟨"default", "Default - Mic (Realtek)(abcd:1234)", "Realtek", true⟩,
      by decide, rfl⟩).1

/-- Claim C9: when getUserMedia is denied, `startRecording` is atomic on
the session state — the session is back to not-recording, no stream is
held, the activity monitor is not running and (entering from an idle
session) no recorder is active, and the latch is cleared; the failure is
the `DeviceUnavailable` outcome rather than a partially started session. -/
theorem startRecording_failure_atomic (s : SessionState)
    (hrec : s.recorderActive = false) :
    (startRecording s .denied).isRecording = false
    ∧ (startRecording s .denied).stream = none
    ∧ (startRecording s .denied).monitorRunning = false
    ∧ (startRecording s .denied).recorderActive = false
    ∧ (startRecording s .denied).monitor.hasMeaningfulAudio = false :=
  ⟨rfl, rfl, rfl, hrec, rfl⟩

/-- Witness for C9 at a concrete pre-start state. -/
theorem startRecording_failure_atomic_witness :
    (startRecording ⟨true, some 3, true, false, [[5]], ⟨true, 7⟩⟩
        .denied).stream = none :=
  (startRecording_failure_atomic
    ⟨true, some 3, true, false, [[5]], ⟨true, 7⟩⟩ rfl).2.1

/-- The latch value computed by the sampling loop never depends on the
silent-frame counter. -/
lemma latch_ignores_silentFrames (ticks : List (List Nat)) :
    ∀ s1 s2 : MonitorState,
      s1.hasMeaningfulAudio = s2.hasMeaningfulAudio →
      (runTicks s1 ticks).hasMeaningfulAudio
        = (runTicks s2 ticks).hasMeaningfulAudio := by
  induction ticks with
  | nil => intro s1 s2 h; exact h
  | cons d ds ih =>
      intro s1 s2 h
      rw [runTicks_cons, runTicks_cons]
      apply ih
      unfold audioLevelTick
      split
      · rfl
      · exact h

/-- Claim C10: the `silentFrameStreak` counter has no effect on any
observable output — two monitor states agreeing on the latch but differing
arbitrarily in the counter drive the sampling loop to the same latch value
and the same stop()-time artifact decision; the counter itself is written
(reset on loud ticks, incremented on silent ones) but never read by the
decision. -/
theorem silentFrameStreak_noninterference (s1 s2 : MonitorState)
    (ticks chunks : List (List Nat))
    (hsame : s1.hasMeaningfulAudio = s2.hasMeaningfulAudio) :
    (runTicks s1 ticks).hasMeaningfulAudio
        = (runTicks s2 ticks).hasMeaningfulAudio
    ∧ onstop (runTicks s1 ticks).hasMeaningfulAudio chunks
        = onstop (runTicks s2 ticks).hasMeaningfulAudio chunks
    ∧ (∀ (st : MonitorState) (d : List Nat), threshold < avgLevel d →
        (audioLevelTick st d).silentFramesCount = 0)
    ∧ (∀ (st : MonitorState) (d : List Nat), ¬ threshold < avgLevel d →
        (audioLevelTick st d).silentFramesCount
          = st.silentFramesCount + 1) := by
  have hflag := latch_ignores_silentFrames ticks s1 s2 hsame
  refine ⟨hflag, by rw [hflag], ?_, ?_⟩
  · intro st d hd
    unfold audioLevelTick
    rw [if_pos hd]
  · intro st d hd
    unfold audioLevelTick
    rw [if_neg hd]

/-- Witness for C10: counters 5 and 99 with the latch unset behave
identically. -/
theorem silentFrameStreak_noninterference_witness :
    onstop (runTicks ⟨false, 5⟩ [[20, 20]]).hasMeaningfulAudio [[1]]
      = onstop (runTicks ⟨false, 99⟩ [[20, 20]]).hasMeaningfulAudio [[1]] :=
  (silentFrameStreak_noninterference ⟨false, 5⟩ ⟨false, 99⟩ [[20, 20]] [[1]]
    rfl).2.1

set_option maxRecDepth 8192 in
set_option maxHeartbeats 1000000 in
/-- Claim C8: the derived display name equals the spec's described
pipeline on every label (leading-marker strip, Microphone-token strip, first
non-hardware-id parenthetical contents, otherwise trailing-parenthetical
strips, then trim), and on the reference inputs
"Default - Mic (Realtek)(abcd:1234)" yields "Realtek" and
"USB Mic (ef01:5678)" yields "USB Mic". -/
theorem extractDisplayName_spec :
    extractDisplayName "Default - Mic (Realtek)(abcd:1234)" = "Realtek"
    ∧ extractDisplayName "USB Mic (ef01:5678)" = "USB Mic"
    ∧ ∀ label, extractDisplayName label = specDisplayName label := by
  refine ⟨by decide, by decide, ?_⟩
  intro label
  simp only [extractDisplayName, specDisplayName]
  cases firstParenInner (stripMicrophoneToken (stripDefaultComm label)).data with
  | none => rfl
  | some contents =>
      cases hhw : isHwIdFull contents <;> simp [hhw]

/-! ### Invariants of the dedup fold -/

lemma mem_stateKeys_hw {s : DedupState} {h : String} :
    DeviceKey.hw h ∈ stateKeys s ↔ h ∈ s.hardwareIds := by
  simp [stateKeys]

lemma mem_stateKeys_name {s : DedupState} {n : String} :
    DeviceKey.name n ∈ stateKeys s ↔ n ∈ s.deviceNames := by
  simp [stateKeys]

/-- A device whose identity is unseen is appended and its identity
recorded. -/
lemma processDevice_fresh {s : DedupState} {d : AudioDevice}
    (hf : keyOf d ∉ stateKeys s) :
    (processDevice s d).uniqueDevices = s.uniqueDevices ++ [d]
    ∧ ∀ k, k ∈ stateKeys (processDevice s d)
        ↔ k ∈ stateKeys s ∨ k = keyOf d := by
  cases e : hwIdAtEnd d.label with
  | some hid =>
      have hred : processDevice s d = processHw s d hid := by
        unfold processDevice
        rw [e]
      have hk : keyOf d = .hw hid := by unfold keyOf; rw [e]
      have hmem : hid ∉ s.hardwareIds := by
        intro hm
        exact hf (hk ▸ mem_stateKeys_hw.mpr hm)
      rw [hred]
      unfold processHw
      rw [if_neg hmem]
      refine ⟨rfl, ?_⟩
      intro k
      simp only [stateKeys, List.map_append, List.map_cons, List.map_nil,
        List.mem_append, List.mem_singleton, hk]
      tauto
  | none =>
      have hred : processDevice s d = processName s d := by
        unfold processDevice
        rw [e]
      have hk : keyOf d = .name (baseNameOf d.label) := by unfold keyOf; rw [e]
      have hmem : baseNameOf d.label ∉ s.deviceNames := by
        intro hm
        exact hf (hk ▸ mem_stateKeys_name.mpr hm)
      rw [hred]
      unfold processName
      rw [if_neg hmem]
      refine ⟨rfl, ?_⟩
      intro k
      simp only [stateKeys, List.map_append, List.map_cons, List.map_nil,
        List.mem_append, List.mem_singleton, hk]
      tauto

/-- A non-default device whose identity was already seen is dropped and the
state is unchanged. -/
lemma processDevice_seen_nondefault {s : DedupState} {d : AudioDevice}
    (hseen : keyOf d ∈ stateKeys s) (hnd : d.isDefault = false) :
    processDevice s d = s := by
  cases e : hwIdAtEnd d.label with
  | some hid =>
      have hred : processDevice s d = processHw s d hid := by
        unfold processDevice
        rw [e]
      have hk : keyOf d = .hw hid := by unfold keyOf; rw [e]
      have hmem : hid ∈ s.hardwareIds := mem_stateKeys_hw.mp (hk ▸ hseen)
      rw [hred]
      unfold processHw
      rw [if_pos hmem]
      simp [hnd]
  | none =>
      have hred : processDevice s d = processName s d := by
        unfold processDevice
        rw [e]
      have hk : keyOf d = .name (baseNameOf d.label) := by unfold keyOf; rw [e]
      have hmem : baseNameOf d.label ∈ s.deviceNames :=
        mem_stateKeys_name.mp (hk ▸ hseen)
      rw [hred]
      unfold processName
      rw [if_pos hmem]
      simp [hnd]

/-- Folding a run of devices with pairwise-distinct identities, all unseen,
appends every one of them. This covers the default-first phase of the
dedup loop. -/
lemma foldl_defaults (l : List AudioDevice) :
    ∀ s : DedupState, (l.map keyOf).Nodup →
      (∀ d ∈ l, keyOf d ∉ stateKeys s) →
      (l.foldl processDevice s).uniqueDevices = s.uniqueDevices ++ l
      ∧ ∀ k, k ∈ stateKeys (l.foldl processDevice s)
          ↔ k ∈ stateKeys s ∨ k ∈ l.map keyOf := by
  induction l with
  | nil =>
      intro s _ _
      exact ⟨(List.append_nil _).symm, fun k => by simp⟩
  | cons d ds ih =>
      intro s hnd hfresh
      have hf : keyOf d ∉ stateKeys s := hfresh d (List.mem_cons_self d ds)
      obtain ⟨hu, hks⟩ := processDevice_fresh hf
      rw [List.map_cons, List.nodup_cons] at hnd
      have hfresh' : ∀ d' ∈ ds, keyOf d' ∉ stateKeys (processDevice s d) := by
        intro d' hd' hmem
        rcases (hks _).mp hmem with hin | heq
        · exact hfresh d' (List.mem_cons_of_mem d hd') hin
        · exact hnd.1 (heq ▸ List.mem_map_of_mem keyOf hd')
      obtain ⟨ihu, ihk⟩ := ih (processDevice s d) hnd.2 hfresh'
      constructor
      · rw [List.foldl_cons, ihu, hu, List.append_assoc, List.singleton_append]
      · intro k
        rw [List.foldl_cons, ihk k, hks k, List.map_cons]
        simp only [List.mem_cons]
        tauto

/-- Folding a run of non-default devices keeps one entry per identity:
fresh identities are appended, seen ones are dropped, nothing already kept
is removed or replaced. This covers the second phase of the dedup loop. -/
lemma foldl_nondefaults (l : List AudioDevice) :
    ∀ s : DedupState, (∀ d ∈ l, d.isDefault = false) →
      (s.uniqueDevices.map keyOf).Nodup →
      (∀ k, k ∈ stateKeys s ↔ k ∈ s.uniqueDevices.map keyOf) →
      ((l.foldl processDevice s).uniqueDevices.map keyOf).Nodup
      ∧ (∀ k, k ∈ stateKeys (l.foldl processDevice s)
            ↔ k ∈ (l.foldl processDevice s).uniqueDevices.map keyOf)
      ∧ (∀ k, k ∈ stateKeys (l.foldl processDevice s)
            ↔ k ∈ stateKeys s ∨ k ∈ l.map keyOf)
      ∧ ∃ extra, (l.foldl processDevice s).uniqueDevices
            = s.uniqueDevices ++ extra := by
  induction l with
  | nil =>
      intro s _ hU hI
      exact ⟨hU, hI, fun k => by simp, ⟨[], (List.append_nil _).symm⟩⟩
  | cons d ds ih =>
      intro s hnd hU hI
      have hd0 : d.isDefault = false := hnd d (List.mem_cons_self d ds)
      have hnd' : ∀ d' ∈ ds, d'.isDefault = false :=
        fun d' h => hnd d' (List.mem_cons_of_mem d h)
      by_cases hseen : keyOf d ∈ stateKeys s
      · have heq : processDevice s d = s :=
          processDevice_seen_nondefault hseen hd0
        rw [List.foldl_cons, heq]
        obtain ⟨a, b, c, e⟩ := ih s hnd' hU hI
        refine ⟨a, b, ?_, e⟩
        intro k
        rw [c k, List.map_cons]
        simp only [List.mem_cons]
        constructor
        · rintro (h | h)
          · exact Or.inl h
          · exact Or.inr (Or.inr h)
        · rintro (h | h | h)
          · exact Or.inl h
          · exact Or.inl (h ▸ hseen)
          · exact Or.inr h
      · obtain ⟨hu, hks⟩ := processDevice_fresh hseen
        have hU' : ((processDevice s d).uniqueDevices.map keyOf).Nodup := by
          rw [hu, List.map_append]
          refine List.Nodup.append hU (List.nodup_singleton _) ?_
          intro k hk1 hk2
          rw [List.map_cons, List.map_nil, List.mem_singleton] at hk2
          exact hseen ((hI _).mpr (hk2 ▸ hk1))
        have hI' : ∀ k, k ∈ stateKeys (processDevice s d)
            ↔ k ∈ (processDevice s d).uniqueDevices.map keyOf := by
          intro k
          rw [hks k, hu, List.map_append, List.mem_append, hI k]
          simp
        obtain ⟨a, b, c, ⟨extra, e⟩⟩ := ih (processDevice s d) hnd' hU' hI'
        refine ⟨?_, ?_, ?_, ⟨d :: extra, ?_⟩⟩
        · rw [List.foldl_cons]; exact a
        · rw [List.foldl_cons]; exact b
        · intro k
          rw [List.foldl_cons, c k, hks k, List.map_cons]
          simp only [List.mem_cons]
          tauto
        · rw [List.foldl_cons, e, hu, List.append_assoc,
            List.singleton_append]

/-- Core dedup facts: one output entry per distinct identity (so exactly K
entries for K identities), every input identity represented, and every
default-flagged entry kept. -/
lemma filterDuplicateMicrophones_core (devices : List AudioDevice)
    (hdef : ((devices.filter (fun d => d.isDefault)).map keyOf).Nodup) :
    (filterDuplicateMicrophones devices).length
        = ((devices.map keyOf).dedup).length
    ∧ ((filterDuplicateMicrophones devices).map keyOf).Nodup
    ∧ (∀ k, k ∈ (filterDuplicateMicrophones devices).map keyOf
          ↔ k ∈ devices.map keyOf)
    ∧ ∀ d ∈ devices, d.isDefault = true →
        d ∈ filterDuplicateMicrophones devices := by
  have hout : filterDuplicateMicrophones devices
      = ((devices.filter (fun d => d.isDefault)
          ++ devices.filter (fun d => !d.isDefault)).foldl
            processDevice ⟨[], [], []⟩).uniqueDevices := rfl
  have hsplit : (devices.filter (fun d => d.isDefault)
        ++ devices.filter (fun d => !d.isDefault)).foldl
          processDevice (⟨[], [], []⟩ : DedupState)
      = (devices.filter (fun d => !d.isDefault)).foldl processDevice
          ((devices.filter (fun d => d.isDefault)).foldl
            processDevice ⟨[], [], []⟩) :=
    List.foldl_append _ _ _ _
  have hfresh0 : ∀ d ∈ devices.filter (fun d => d.isDefault),
      keyOf d ∉ stateKeys ⟨[], [], []⟩ := by
    intro d _ h
    cases h
  obtain ⟨hu₁, hk₁⟩ :=
    foldl_defaults (devices.filter (fun d => d.isDefault))
      ⟨[], [], []⟩ hdef hfresh0
  have hu₁' : ((devices.filter (fun d => d.isDefault)).foldl
        processDevice ⟨[], [], []⟩).uniqueDevices
      = devices.filter (fun d => d.isDefault) := by
    rw [hu₁]
    rfl
  have hU₁ : (((devices.filter (fun d => d.isDefault)).foldl
        processDevice ⟨[], [], []⟩).uniqueDevices.map keyOf).Nodup := by
    rw [hu₁']
    exact hdef
  have hI₁ : ∀ k, k ∈ stateKeys ((devices.filter (fun d => d.isDefault)).foldl
          processDevice ⟨[], [], []⟩)
      ↔ k ∈ ((devices.filter (fun d => d.isDefault)).foldl
          processDevice ⟨[], [], []⟩).uniqueDevices.map keyOf := by
    intro k
    rw [hk₁ k, hu₁']
    have : stateKeys (⟨[], [], []⟩ : DedupState) = [] := rfl
    rw [this]
    simp
  have hl₂nd : ∀ d ∈ devices.filter (fun d => !d.isDefault),
      d.isDefault = false := by
    intro d hd
    simpa using (List.mem_filter.mp hd).2
  obtain ⟨hA, hB, hC, ⟨extra, hE⟩⟩ :=
    foldl_nondefaults (devices.filter (fun d => !d.isDefault)) _ hl₂nd hU₁ hI₁
  have houtF : filterDuplicateMicrophones devices
      = ((devices.filter (fun d => !d.isDefault)).foldl processDevice
          ((devices.filter (fun d => d.isDefault)).foldl
            processDevice ⟨[], [], []⟩)).uniqueDevices := by
    rw [hout, hsplit]
  have hpermmap :
      (((devices.filter (fun d => d.isDefault)
          ++ devices.filter (fun d => !d.isDefault)).map keyOf)).Perm
        (devices.map keyOf) :=
    (List.filter_append_perm _ devices).map keyOf
  have hmem : ∀ k,
      k ∈ ((devices.filter (fun d => !d.isDefault)).foldl processDevice
          ((devices.filter (fun d => d.isDefault)).foldl
            processDevice ⟨[], [], []⟩)).uniqueDevices.map keyOf
        ↔ k ∈ devices.map keyOf := by
    intro k
    rw [← hB k, hC k, hk₁ k, ← hpermmap.mem_iff]
    have : stateKeys (⟨[], [], []⟩ : DedupState) = [] := rfl
    rw [this]
    simp only [List.map_append, List.mem_append, List.not_mem_nil, false_or]
  refine ⟨?_, ?_, ?_, ?_⟩
  · have hnodup2 : ((devices.map keyOf).dedup).Nodup := List.nodup_dedup _
    have hperm2 : (((devices.filter (fun d => !d.isDefault)).foldl
          processDevice ((devices.filter (fun d => d.isDefault)).foldl
            processDevice ⟨[], [], []⟩)).uniqueDevices.map keyOf).Perm
        ((devices.map keyOf).dedup) := by
      rw [List.perm_ext_iff_of_nodup hA hnodup2]
      intro k
      rw [List.mem_dedup]
      exact hmem k
    have hlen := hperm2.length_eq
    rw [List.length_map] at hlen
    rw [houtF]
    exact hlen
  · rw [houtF]
    exact hA
  · intro k
    rw [houtF]
    exact hmem k
  · intro d hd hdd
    rw [houtF, hE, hu₁']
    exact List.mem_append_left _ (List.mem_filter.mpr ⟨hd, hdd⟩)

/-- Claim C6: provided at most one entry per hardware identity is flagged
default, deduplication keeps exactly one entry per distinct identity — the
output has exactly K entries for K distinct identities, with no duplicate
identities and every input identity represented, the count is invariant
under input reordering, and every default-flagged entry (the preferred
representative of its group) is kept, so a later non-default duplicate
never evicts an already-kept default. -/
theorem filterDuplicateMicrophones_dedup (devices : List AudioDevice)
    (hdef : ((devices.filter (fun d => d.isDefault)).map keyOf).Nodup) :
    (filterDuplicateMicrophones devices).length
        = ((devices.map keyOf).dedup).length
    ∧ ((filterDuplicateMicrophones devices).map keyOf).Nodup
    ∧ (∀ k, k ∈ (filterDuplicateMicrophones devices).map keyOf
          ↔ k ∈ devices.map keyOf)
    ∧ (∀ d ∈ devices, d.isDefault = true →
        d ∈ filterDuplicateMicrophones devices)
    ∧ ∀ devices' : List AudioDevice, devices'.Perm devices →
        ((devices'.filter (fun d => d.isDefault)).map keyOf).Nodup →
        (filterDuplicateMicrophones devices').length
          = (filterDuplicateMicrophones devices).length := by
  obtain ⟨h1, h2, h3, h4⟩ := filterDuplicateMicrophones_core devices hdef
  refine ⟨h1, h2, h3, h4, ?_⟩
  intro devices' hperm hdef'
  obtain ⟨h1', _, _, _⟩ := filterDuplicateMicrophones_core devices' hdef'
  rw [h1, h1']
  exact ((hperm.map keyOf).dedup).length_eq

/-- Witness for C6 at the specification's reference device list (two
entries sharing hardware id abcd:1234, one distinct id ef01:5678). -/
theorem filterDuplicateMicrophones_dedup_witness :
    (filterDuplicateMicrophones
        [⟨"A1", "Default - Mic (Realtek)(abcd:1234)", "Realtek", true⟩,
         ⟨"A2", "Mic (Realtek)(abcd:1234)", "Realtek", false⟩,
         ⟨"B1", "USB Mic (ef01:5678)", "USB Mic", false⟩]).length
      = (([(⟨"A1", "Default - Mic (Realtek)(abcd:1234)", "Realtek", true⟩ :
            AudioDevice),
          ⟨"A2", "Mic (Realtek)(abcd:1234)", "Realtek", false⟩,
          ⟨"B1", "USB Mic (ef01:5678)", "USB Mic", false⟩].map keyOf).dedup).length :=
  (filterDuplicateMicrophones_dedup _ (by decide)).1

end VibeTranscribe
